import Mathlib

/-!
Shallow embedding of the ioBroker.danfoss-ally adapter core
(src/main.js, current iteration, and src/lib/danfossApi.js).

JavaScript runtime values are modelled by `JVal` (primitives handled by the
reconciliation engine) and `JDoc` (JSON documents handled by the API client).
Numbers are rationals; the IEEE value NaN is a separate constructor because
`typeof NaN === 'number'` yet NaN compares unequal to everything, including
itself.  Timestamps are integers (milliseconds).
-/

namespace DanfossAlly

/-- A JavaScript primitive value as seen by the adapter's state pipeline. -/
inductive JVal where
  | num (q : ℚ)
  | nan
  | bool (b : Bool)
  | str (s : String)
  | nullv
  | undefv
deriving DecidableEq, Repr

/-- `typeof v === 'number'` (true also for NaN). -/
def JVal.isNumber : JVal → Bool
  | .num _ => true
  | .nan => true
  | _ => false

/-- `typeof v === 'boolean'`. -/
def JVal.isBool : JVal → Bool
  | .bool _ => true
  | _ => false

/-- `typeof v === 'string'`. -/
def JVal.isStr : JVal → Bool
  | .str _ => true
  | _ => false

/-- JS `String.prototype.trim()`: drop leading and trailing whitespace
(structural re-implementation; the library `String.trim` does not reduce). -/
def jsTrim (s : String) : String :=
  ⟨((s.data.dropWhile Char.isWhitespace).reverse.dropWhile Char.isWhitespace).reverse⟩

/-- ASCII lower-casing of one character (the inputs the adapter lower-cases
are ASCII code identifiers). -/
def asciiLowerChar (c : Char) : Char :=
  if 'A' ≤ c ∧ c ≤ 'Z' then Char.ofNat (c.toNat + 32) else c

/-- JS `String.prototype.toLowerCase()` on the ASCII inputs that occur. -/
def asciiLower (s : String) : String :=
  ⟨s.data.map asciiLowerChar⟩

/-- Numeric value of a decimal digit character. -/
def digitVal (c : Char) : ℕ := c.toNat - 48

/-- Value of a non-empty all-digit character list, `none` otherwise. -/
def natOfDigits (cs : List Char) : Option ℕ :=
  if cs ≠ [] ∧ cs.all Char.isDigit then
    some (cs.foldl (fun a c => a * 10 + digitVal c) 0)
  else
    none

/-- Split a character list at each `'.'` (structural). -/
def splitDot : List Char → List Char → List (List Char)
  | [], acc => [acc.reverse]
  | c :: rest, acc =>
      if c = '.' then acc.reverse :: splitDot rest []
      else splitDot rest (c :: acc)

/-- Parse an unsigned decimal literal (digits, optionally with one dot),
mirroring the subset of JS `Number(string)` grammar the adapter encounters. -/
def parseUnsignedDec (cs : List Char) : Option ℚ :=
  match splitDot cs [] with
  | [ip] => (natOfDigits ip).map (fun n => (n : ℚ))
  | [ip, fp] =>
      if ip = [] ∧ fp = [] then none
      else
        match natOfDigits (if ip = [] then ['0'] else ip),
              natOfDigits (if fp = [] then ['0'] else fp) with
        | some i, some f => some ((i : ℚ) + (f : ℚ) / (10 : ℚ) ^ fp.length)
        | _, _ => none
  | _ => none

/-- JS `Number(string)`: trimmed empty string is `0`; an optional sign followed
by a decimal literal parses to that number; anything else is NaN. -/
def jsStringToNumber (s : String) : JVal :=
  let t := jsTrim s
  if t = "" then .num 0
  else
    match t.data with
    | '-' :: rest => match parseUnsignedDec rest with
        | some q => .num (-q)
        | none => .nan
    | '+' :: rest => match parseUnsignedDec rest with
        | some q => .num q
        | none => .nan
    | cs => match parseUnsignedDec cs with
        | some q => .num q
        | none => .nan

/-- JS `Number(v)` conversion. -/
def jsToNumber : JVal → JVal
  | .num q => .num q
  | .nan => .nan
  | .bool b => .num (if b then 1 else 0)
  | .str s => jsStringToNumber s
  | .nullv => .num 0
  | .undefv => .nan

/-- Smallest exponent `k ≤ 20` with `d ∣ 10^k`, for decimal formatting. -/
def decExp (d : ℕ) : Option ℕ :=
  (List.range 21).find? (fun k => 10 ^ k % d = 0)

/-- Strip trailing `'0'` characters. -/
def stripTrailingZeros (s : String) : String :=
  ⟨(s.toList.reverse.dropWhile (· = '0')).reverse⟩

/-- Left-pad with `'0'` to length `k`. -/
def padZeros (s : String) (k : ℕ) : String :=
  ⟨List.replicate (k - s.length) '0' ++ s.toList⟩

/-- Decimal rendering of a rational whose denominator divides a power of ten
(the only numbers the adapter produces); mirrors JS `String(number)` on
those values. -/
def numToString (q : ℚ) : String :=
  if q.den = 1 then toString q.num
  else
    match decExp q.den with
    | some k =>
        let sign := if q < 0 then "-" else ""
        let m := (|q| * (10 : ℚ) ^ k).num.toNat
        let ip := m / 10 ^ k
        let fr := m % 10 ^ k
        let fs := stripTrailingZeros (padZeros (toString fr) k)
        sign ++ toString ip ++ (if fs = "" then "" else "." ++ fs)
    | none => toString q

/-- JS `String(v)` conversion. -/
def jsToString : JVal → String
  | .num q => numToString q
  | .nan => "NaN"
  | .bool b => if b then "true" else "false"
  | .str s => s
  | .nullv => "null"
  | .undefv => "undefined"

/-- JS strict equality `===` on primitives (NaN is unequal to everything,
including itself). -/
def jsStrictEq : JVal → JVal → Bool
  | .num a, .num b => decide (a = b)
  | .nan, _ => false
  | _, .nan => false
  | .bool a, .bool b => decide (a = b)
  | .str a, .str b => decide (a = b)
  | .nullv, .nullv => true
  | .undefv, .undefv => true
  | _, _ => false

/-- `Math.abs(a - b) <= eps` where the operands are JS values: the comparison
is `false` as soon as either side is not a finite number (NaN propagates and
every comparison with NaN is false). -/
def jsAbsSubLe (a b : JVal) (eps : ℚ) : Bool :=
  match a, b with
  | .num x, .num y => decide (|x - y| ≤ eps)
  | _, _ => false

/-- `TEMP_EPS = 0.05` (src/main.js line 9). -/
def TEMP_EPS : ℚ := 1 / 20

/-- `WRITE_HOLD_MS = 60 * 1000` (src/main.js line 6). -/
def WRITE_HOLD_MS : ℤ := 60 * 1000

/-- `LAG_SUPPRESS_MS = 15000` (src/main.js line 8). -/
def LAG_SUPPRESS_MS : ℤ := 15000

/-- The `TYPE_HINTS` map literal (src/main.js lines 12-38). -/
def TYPE_HINTS : List (String × String) :=
  [("temp_current", "number"), ("temp_set", "number"), ("upper_temp", "number"),
   ("lower_temp", "number"), ("at_home_setting", "number"),
   ("leaving_home_setting", "number"), ("pause_setting", "number"),
   ("holiday_setting", "number"), ("manual_mode_fast", "number"),
   ("humidity_value", "number"), ("battery_percentage", "number"),
   ("child_lock", "boolean"),
   ("mode", "string"), ("SetpointChangeSource", "string"),
   ("work_state", "string"), ("output_status", "string"), ("fault", "string")]

/-- The `tempish` list used inside `isSameVal` (src/main.js lines 138-141);
the same list appears as `tempLike` in `updateDevices` and `_softRefreshOne`. -/
def tempish : List String :=
  ["temp_current", "temp_set", "upper_temp", "lower_temp",
   "at_home_setting", "leaving_home_setting", "pause_setting",
   "holiday_setting", "manual_mode_fast"]

/-- `MODE_ALIASES` map literal (src/main.js lines 86-94). -/
def MODE_ALIASES : List (String × String) :=
  [("holiday_sat", "holiday"), ("manual", "manual"),
   ("leaving_home", "leaving_home"), ("pause", "pause"),
   ("at_home", "at_home"), ("holiday", "holiday"), ("auto", "auto")]

/-- `normalizeMode` (src/main.js lines 104-110) applied to a string input
(`String(val)` has already been taken by the caller): trim, lower-case alias
lookup, otherwise the trimmed input unchanged. -/
def normalizeMode (m : String) : String :=
  let t := jsTrim m
  match MODE_ALIASES.lookup (asciiLower t) with
  | some v => v
  | none => t

/-- `coerceTypeByHint` (src/main.js lines 122-133). -/
def coerceTypeByHint (code : String) (value : JVal) : JVal :=
  match TYPE_HINTS.lookup code with
  | none => value
  | some hint =>
      if hint = "number" then
        if value.isNumber then value else jsToNumber value
      else if hint = "boolean" then
        if value.isBool then value
        else .bool (jsStrictEq value (.str "true") || jsStrictEq value (.bool true) ||
                    jsStrictEq value (.num 1))
      else if hint = "string" then
        match value with
        | .nullv => .str ""
        | .undefv => .str ""
        | v => .str (jsToString v)
      else value

/-- `isSameVal` (src/main.js lines 136-145): when both operands are numbers,
temperature-ish codes compare with the `TEMP_EPS` tolerance and all others
with `===`; otherwise plain `===`. -/
def isSameVal (code : String) (a b : JVal) : Bool :=
  if a.isNumber && b.isNumber then
    if tempish.contains code then jsAbsSubLe a b TEMP_EPS else jsStrictEq a b
  else jsStrictEq a b

/-- The hold-check comparison used in `updateDevices` (src/main.js lines
352-354) and `_softRefreshOne` (lines 450-452):
`(typeof value === 'number' && Math.abs(value - Number(pending.val)) <= TEMP_EPS)
 || (value === pending.val)` — note that unlike `isSameVal` it does not look
at the code at all. -/
def holdSame (value pval : JVal) : Bool :=
  (value.isNumber && jsAbsSubLe value (jsToNumber pval) TEMP_EPS) ||
  jsStrictEq value pval

/-- `value / 10` on a JS number (NaN / 10 is NaN); identity elsewhere.  Used
where the source guards with `typeof value === 'number'`. -/
def jsDiv10 : JVal → JVal
  | .num q => .num (q / 10)
  | v => v

/-- The unit-scaling applied on poll ingestion (src/main.js lines 288-297 and
the identical block in `_softRefreshOne`, lines 432-441): temperature-like
codes and `humidity_value` divide a numeric raw value by 10. -/
def scaleIngest (code : String) (v : JVal) : JVal :=
  let v1 := if tempish.contains code && v.isNumber then jsDiv10 v else v
  if code = "humidity_value" && v1.isNumber then jsDiv10 v1 else v1

/-- Scaling followed by type coercion: the value the reconciliation engine
compares and stores for a raw polled value (src/main.js lines 288-300). -/
def coercedPollValue (code : String) (raw : JVal) : JVal :=
  coerceTypeByHint code (scaleIngest code raw)

/-- A stored ioBroker state: `{ val, ack }`. -/
structure StateVal where
  val : JVal
  ack : Bool
deriving DecidableEq, Repr

/-- A pending-write table entry: `{ val, until }` (src/main.js line 159).
The source field `until` is a reserved word here, hence `untilMs`. -/
structure PendingEntry where
  val : JVal
  untilMs : ℤ
deriving DecidableEq, Repr

/-- Classification of one (device, code) pair inside a poll cycle:
`held` increments the `held` counter, `suppressed` is the lag-suppression
`continue`, `skipped`/`changed` are the change-detection outcomes. -/
inductive PollOutcome where
  | held
  | suppressed
  | skipped
  | changed
deriving DecidableEq, Repr

/-- Result of processing one (device, code) pair in a poll cycle: the
classification, the pending entry left for that key, and the value written to
the state store (with `ack = true`), if any. -/
structure StepResult where
  outcome : PollOutcome
  pendingAfter : Option PendingEntry
  write : Option JVal
deriving DecidableEq, Repr

/-- Change detection (`only-if-changed`, src/main.js lines 379-390): skip when
a stored value exists, is not `undefined`, and `isSameVal` holds; otherwise
write the value with `ack = true`. -/
def changeDetectStep (code : String) (value : JVal) (pendingAfter : Option PendingEntry)
    (stored : Option StateVal) : StepResult :=
  let same := match stored with
    | some cur => cur.val ≠ .undefv && isSameVal code cur.val value
    | none => false
  if same then ⟨.skipped, pendingAfter, none⟩
  else ⟨.changed, pendingAfter, some value⟩

/-- Lag suppression (src/main.js lines 368-377): if a recent-write timestamp
exists (and is truthy) within `LAG_SUPPRESS_MS` of the poll start, compare the
cloud value to the currently stored value with `isSameVal`; skip the code on a
mismatch, otherwise fall through to change detection. -/
def lagStep (code : String) (value : JVal) (pendingAfter : Option PendingEntry)
    (recentTs : Option ℤ) (stored : Option StateVal) (pollStartedAt : ℤ) : StepResult :=
  let lastWriteTs := recentTs.getD 0
  if lastWriteTs ≠ 0 ∧ pollStartedAt - lastWriteTs < LAG_SUPPRESS_MS then
    let same := match stored with
      | some cur => cur.val ≠ .undefv && isSameVal code cur.val value
      | none => false
    if same then changeDetectStep code value pendingAfter stored
    else ⟨.suppressed, pendingAfter, none⟩
  else changeDetectStep code value pendingAfter stored

/-- The per-code decision pipeline of `updateDevices` (src/main.js lines
348-390): hold check, then lag suppression, then change detection.  `value`
is the already scaled and coerced cloud value; `pending?`, `recentTs` and
`stored` are the entries for this (device, code) key. -/
def pollStepCore (code : String) (value : JVal) (pending? : Option PendingEntry)
    (recentTs : Option ℤ) (stored : Option StateVal) (pollStartedAt : ℤ) : StepResult :=
  match pending? with
  | some p =>
      if pollStartedAt < p.untilMs then
        if holdSame value p.val then
          lagStep code value none recentTs stored pollStartedAt
        else ⟨.held, some p, none⟩
      else lagStep code value (some p) recentTs stored pollStartedAt
  | none => lagStep code value none recentTs stored pollStartedAt

/-- The write-coordination bookkeeping owned by the adapter
(src/main.js lines 159-161): pending writes, recent-write timestamps and the
global last-write time, keyed by `deviceId.code`. -/
structure ReconState where
  pending : List (String × PendingEntry)
  recentWriteTs : List (String × ℤ)
  lastWriteAt : ℤ
deriving Repr

/-- Replace-or-insert into an association list (JS `Map.set`). -/
def alistSet {α : Type} (k : String) (v : α) : List (String × α) → List (String × α)
  | [] => [(k, v)]
  | (k', v') :: rest => if k' = k then (k, v) :: rest else (k', v') :: alistSet k v rest

/-- `_noteWrite` (src/main.js lines 401-411): register a pending write with
expiry `now + WRITE_HOLD_MS`, stamp the recent-write time and the global
last-write time. -/
def noteWrite (st : ReconState) (deviceId code : String) (localVal : JVal)
    (now : ℤ) : ReconState :=
  let key := deviceId ++ "." ++ code
  { pending := alistSet key ⟨localVal, now + WRITE_HOLD_MS⟩ st.pending,
    recentWriteTs := alistSet key now st.recentWriteTs,
    lastWriteAt := now }

/-- `Math.max` lifted to JS values (NaN-absorbing). -/
def jsMax : JVal → JVal → JVal
  | .num a, .num b => .num (max a b)
  | _, _ => .nan

/-- `Math.min` lifted to JS values (NaN-absorbing). -/
def jsMin : JVal → JVal → JVal
  | .num a, .num b => .num (min a b)
  | _, _ => .nan

/-- `Math.round`: round half towards positive infinity. -/
def jsRound (q : ℚ) : ℤ := ⌊q + 1 / 2⌋

/-- `Math.round` lifted to JS values. -/
def jsRoundVal : JVal → JVal
  | .num q => .num (jsRound q)
  | _ => .nan

/-- `prepareTempValue10` (src/main.js lines 573-593): `Number(v)`; `null` when
not finite; clamp with `Math.max` against a numeric `lower_temp` state and
`Math.min` against a numeric `upper_temp` state; return `Math.round(target*10)`.
The clamped-and-scaled result is only what gets *sent*; the callers store the
original `Number(val)` locally. -/
def prepareTempValue10 (v : JVal) (lower upper : Option StateVal) : Option JVal :=
  match jsToNumber v with
  | .num t0 =>
      let t1 := match lower with
        | some l => if l.val.isNumber then jsMax (.num t0) l.val else .num t0
        | none => .num t0
      let t2 := match upper with
        | some u => if u.val.isNumber then jsMin t1 u.val else t1
        | none => t1
      some (jsRoundVal (match t2 with | .num q => .num (q * 10) | _ => .nan))
  | _ => none

/-- Observable effect of one `onStateChange` write branch: the command
submitted to the cloud, the local states set (with `ack = true`), the
`_noteWrite` registration, and the codes handed to `_softRefreshSoon`. -/
structure WriteEffect where
  sent : Option (String × JVal)
  stateSet : List (String × StateVal)
  noted : Option (String × JVal)
  softCodes : Option (List String)
deriving Repr

/-- The `temp_set` branch of `onStateChange` (src/main.js lines 622-638):
prepare the clamped ×10 wire value; on `null` bail out with a warning;
otherwise send it, set the local `temp_set` state to `Number(val)` (the
original, unclamped request) with `ack`, register `_noteWrite` with that same
original value, and schedule a soft refresh for `temp_set`. -/
def onWriteTempSet (deviceId : String) (val : JVal)
    (lower upper : Option StateVal) : WriteEffect :=
  match prepareTempValue10 val lower upper with
  | none => ⟨none, [], none, none⟩
  | some v10 =>
      { sent := some ("temp_set", v10),
        stateSet := [(deviceId ++ ".temp_set", ⟨jsToNumber val, true⟩)],
        noted := some ("temp_set", jsToNumber val),
        softCodes := some ["temp_set", "temp_current"] }

/-- The `mode` branch of `onStateChange` (src/main.js lines 681-693): the
submitted and stored value is `normalizeMode(String(val))` — alias lookup
only, with unrecognized input passed through unchanged. -/
def onWriteMode (deviceId : String) (val : JVal) : WriteEffect :=
  let next := normalizeMode (jsToString val)
  { sent := some ("mode", .str next),
    stateSet := [(deviceId ++ ".mode", ⟨.str next, true⟩)],
    noted := some ("mode", .str next),
    softCodes := some ["mode", "temp_current"] }

/-- The `SetpointChangeSource` branch of `onStateChange` (src/main.js lines
696-710): trim `String(val)`, validate against the allow-list
`{'schedule', 'Externally'}` and substitute `'Externally'` otherwise. -/
def onWriteSetpointChangeSource (deviceId : String) (val : JVal) : WriteEffect :=
  let v := jsTrim (jsToString val)
  let allowed : List String := ["schedule", "Externally"]
  let src := if allowed.contains v then v else "Externally"
  { sent := some ("SetpointChangeSource", .str src),
    stateSet := [(deviceId ++ ".SetpointChangeSource", ⟨.str src, true⟩)],
    noted := some ("SetpointChangeSource", .str src),
    softCodes := some ["SetpointChangeSource", "temp_current"] }

/-- A JSON document as returned by the vendor API (no NaN: JSON has none). -/
inductive JDoc where
  | obj (fields : List (String × JDoc))
  | arr (elems : List JDoc)
  | str (s : String)
  | num (q : ℚ)
  | bool (b : Bool)
  | nullv
  | undefv

/-- `v === undefined`. -/
def JDoc.isUndef : JDoc → Bool
  | .undefv => true
  | _ => false

/-- JS property access `d.k` / `d?.k`: `undefined` for a missing field or a
non-object receiver. -/
def JDoc.getField : JDoc → String → JDoc
  | .obj fields, k => (fields.lookup k).getD .undefv
  | _, _ => .undefv

/-- JS truthiness of a document value. -/
def JDoc.truthy : JDoc → Bool
  | .obj _ => true
  | .arr _ => true
  | .str s => s ≠ ""
  | .num q => q ≠ 0
  | .bool b => b
  | .nullv => false
  | .undefv => false

/-- `Array.isArray`. -/
def JDoc.isArr : JDoc → Bool
  | .arr _ => true
  | _ => false

/-- JS `a || b`. -/
def jsOr (a b : JDoc) : JDoc := if a.truthy then a else b

/-- `String(v)` on a document (only reached for the `String(d.uuid || d.name)`
id fallback, where the operand is a string or number in practice). -/
def JDoc.toStr : JDoc → String
  | .str s => s
  | .num q => numToString q
  | .bool b => if b then "true" else "false"
  | .nullv => "null"
  | .undefv => "undefined"
  | .obj _ => "[object Object]"
  | .arr _ => ""

/-- A device record as produced by `getDevices` in src/lib/danfossApi.js
(lines 83-88): `{id, name, type, raw}` — this version builds no status map. -/
structure DeviceRec where
  id : JDoc
  name : JDoc
  type : JDoc
  raw : JDoc

/-- `getDevices` normalization (src/lib/danfossApi.js lines 78-89): unwrap
`data.devices` if it is an array, else `data` if it is an array, else `[]`;
map each entry to `{id, name, type, raw}` with the `||` fallback chains; keep
only entries with a truthy id. -/
def getDevices (data : JDoc) : List DeviceRec :=
  let devicesArr := if (data.getField "devices").isArr then data.getField "devices"
    else if data.isArr then data else .arr []
  let elems := match devicesArr with
    | .arr es => es
    | _ => []
  (elems.map (fun d =>
    { id := jsOr (d.getField "id") (jsOr (d.getField "deviceId")
        (jsOr (d.getField "unique_id") (jsOr (d.getField "uid")
          (.str (JDoc.toStr (jsOr (d.getField "uuid") (d.getField "name"))))))),
      name := jsOr (d.getField "name") (jsOr (d.getField "displayName")
        (jsOr (d.getField "roomName") (jsOr (d.getField "deviceName") (.str "Device")))),
      type := jsOr (d.getField "type") (jsOr (d.getField "deviceType") (.str "unknown")),
      raw := d })).filter (fun r => r.id.truthy)

/-- JS loose equality `d.id == deviceId` for the shapes that occur here: a
string id compares by string equality, a numeric id by numeric comparison
with the parsed string. -/
def jsLooseEqIdStr (idv : JDoc) (deviceId : String) : Bool :=
  match idv with
  | .str s => s = deviceId
  | .num q => jsStringToNumber deviceId = .num q
  | .bool b => jsStringToNumber deviceId = .num (if b then 1 else 0)
  | _ => false

/-- `getDeviceStatus` (src/lib/danfossApi.js lines 93-110): try the dedicated
status endpoint; on failure try `GET /devices/{id}`; on failure re-list all
devices and return `found?.raw || {}` for the first device with `d.id ==
deviceId` — the raw vendor device object, with `{}` when no device matches.
A failure of the final listing itself propagates. -/
def getDeviceStatus (deviceId : String) (statusEp deviceEp : Except Unit JDoc)
    (listData : Except Unit JDoc) : Except Unit JDoc :=
  match statusEp with
  | .ok data => .ok data
  | .error _ =>
      match deviceEp with
      | .ok data => .ok data
      | .error _ =>
          match listData with
          | .ok data =>
              let list := getDevices data
              match list.find? (fun d => jsLooseEqIdStr d.id deviceId) with
              | some found => .ok (if found.raw.truthy then found.raw else .obj [])
              | none => .ok (.obj [])
          | .error e => .error e

/-- The status-map flattening the superseded client iteration performs and the
spec describes (src/unnamed/part_001 lines 96-103): keep each `{code, value}`
entry of the `status` array whose code is truthy and whose value is not
`undefined`, as a code-to-value object (later entries overwrite earlier). -/
def flattenStatusMap (d : JDoc) : JDoc :=
  match d.getField "status" with
  | .arr es =>
      .obj (es.foldl (fun acc s =>
        let code := s.getField "code"
        let value := s.getField "value"
        if code.truthy && !value.isUndef then alistSet code.toStr value acc
        else acc) [])
  | _ => .obj []

/-- `_softRefreshSoon` (src/main.js lines 487-491): the fixed delay in
milliseconds and the code set `new Set([code, 'temp_current'])` passed to the
single delayed `_softRefreshOne` call. -/
def softRefreshSoon (code : String) : ℤ × List String :=
  (1500, if code = "temp_current" then [code] else [code, "temp_current"])

/-- Body of `_softRefreshOne` (src/main.js lines 414-481), up to its first
statement after the status fetch.  After computing `statusArray` (lines
417-420), line 422 evaluates `` `${devId}` `` — but no binding `devId` exists
anywhere in that method or its class (the parameter is `deviceId`), so under
`'use strict'` the method throws a `ReferenceError` before the per-entry loop
ever runs. -/
def softRefreshOneBody (raw : JDoc) : Except String (List (String × StateVal)) :=
  let statusArray := if (raw.getField "result").isArr then raw.getField "result"
    else if (raw.getField "status").isArr then raw.getField "status"
    else if raw.isArr then raw else .arr []
  let _ := statusArray
  .error "ReferenceError: devId is not defined"

/-- `_softRefreshOne` as observed by its caller: the surrounding
`try ... catch` (lines 415, 482-484) logs the error at debug level and
swallows it, so the method resolves normally having written no state. -/
def softRefreshOne (raw : JDoc) : List (String × StateVal) :=
  match softRefreshOneBody raw with
  | .ok writes => writes
  | .error _ => []

/-! ### Helper lemmas -/

theorem alistSet_lookup_self {α : Type} (k : String) (v : α) (l : List (String × α)) :
    (alistSet k v l).lookup k = some v := by
  induction l with
  | nil => simp [alistSet, List.lookup]
  | cons hd tl ih =>
      obtain ⟨k', v'⟩ := hd
      by_cases h : k' = k
      · subst h; simp [alistSet, List.lookup]
      · have hne : (k == k') = false := beq_eq_false_iff_ne.mpr (Ne.symm h)
        simp [alistSet, h, List.lookup, hne, ih]

theorem jsStrictEq_symm (a b : JVal) : jsStrictEq a b = jsStrictEq b a := by
  cases a <;> cases b <;> simp [jsStrictEq, eq_comm]

theorem jsAbsSubLe_symm (a b : JVal) (eps : ℚ) :
    jsAbsSubLe a b eps = jsAbsSubLe b a eps := by
  cases a <;> cases b <;> simp [jsAbsSubLe, abs_sub_comm]

theorem isSameVal_symm (code : String) (a b : JVal) :
    isSameVal code a b = isSameVal code b a := by
  unfold isSameVal
  rw [jsStrictEq_symm, jsAbsSubLe_symm, Bool.and_comm]

theorem isSameVal_nan_left (code : String) (b : JVal) :
    isSameVal code .nan b = false := by
  cases b <;> simp [isSameVal, JVal.isNumber, jsAbsSubLe, jsStrictEq]

theorem isSameVal_nan_right (code : String) (a : JVal) :
    isSameVal code a .nan = false := by
  rw [isSameVal_symm]; exact isSameVal_nan_left code a

theorem isSameVal_refl (code : String) (v : JVal) (h : v ≠ .nan) :
    isSameVal code v v = true := by
  cases v with
  | num q =>
      simp only [isSameVal, JVal.isNumber, Bool.and_self, if_true, jsAbsSubLe, jsStrictEq,
                 sub_self, abs_zero, decide_eq_true_eq]
      split
      · norm_num [TEMP_EPS]
      · simp
  | nan => exact absurd rfl h
  | bool b => simp [isSameVal, JVal.isNumber, jsStrictEq]
  | str s => simp [isSameVal, JVal.isNumber, jsStrictEq]
  | nullv => simp [isSameVal, JVal.isNumber, jsStrictEq]
  | undefv => simp [isSameVal, JVal.isNumber, jsStrictEq]

/-- The value shapes that can actually meet in the hold comparison after a
local write: the pending value of a temperature-like code is a finite number
and the coerced cloud value is numeric; a boolean pending value meets a
boolean cloud value (`child_lock`); a string pending value meets a string
cloud value (`mode`, `SetpointChangeSource`). -/
def holdShape (code : String) (value pval : JVal) : Prop :=
  (tempish.contains code = true ∧ (∃ q : ℚ, pval = .num q) ∧ value.isNumber = true) ∨
  ((∃ b : Bool, pval = .bool b) ∧ value.isBool = true) ∨
  ((∃ s : String, pval = .str s) ∧ value.isStr = true)

theorem holdSame_eq_isSameVal (code : String) (value pval : JVal)
    (h : holdShape code value pval) : holdSame value pval = isSameVal code value pval := by
  rcases h with ⟨htemp, ⟨q, hq⟩, hnum⟩ | ⟨⟨b, hb⟩, hval⟩ | ⟨⟨s, hs⟩, hval⟩
  · subst hq
    have hmem : code ∈ tempish := by simpa using htemp
    cases value with
    | num a =>
        by_cases heq : a = q
        · subst heq
          simp [holdSame, isSameVal, JVal.isNumber, jsToNumber, jsAbsSubLe, jsStrictEq,
                hmem]
          norm_num [TEMP_EPS]
        · simp [holdSame, isSameVal, JVal.isNumber, jsToNumber, jsAbsSubLe, jsStrictEq,
                hmem, heq]
    | nan =>
        simp [holdSame, isSameVal, JVal.isNumber, jsToNumber, jsAbsSubLe, jsStrictEq, hmem]
    | bool b => simp [JVal.isNumber] at hnum
    | str s => simp [JVal.isNumber] at hnum
    | nullv => simp [JVal.isNumber] at hnum
    | undefv => simp [JVal.isNumber] at hnum
  · subst hb
    cases value with
    | bool c => simp [holdSame, isSameVal, JVal.isNumber, jsAbsSubLe, jsStrictEq]
    | num a => simp [JVal.isBool] at hval
    | nan => simp [JVal.isBool] at hval
    | str s => simp [JVal.isBool] at hval
    | nullv => simp [JVal.isBool] at hval
    | undefv => simp [JVal.isBool] at hval
  · subst hs
    cases value with
    | str t => simp [holdSame, isSameVal, JVal.isNumber, jsAbsSubLe, jsStrictEq]
    | num a => simp [JVal.isStr] at hval
    | nan => simp [JVal.isStr] at hval
    | bool b => simp [JVal.isStr] at hval
    | nullv => simp [JVal.isStr] at hval
    | undefv => simp [JVal.isStr] at hval

/-! ### Claim theorems -/

/-- Claim C3 counterexample: the hold check of `updateDevices` does not use
the per-code tolerance equality.  With an active pending write of `50` for
`battery_percentage` (a non-temperature code, so tolerance equality demands
exact identity) and a polled value `50.04`, the engine treats the two as
equal: it clears the pending entry and proceeds to change detection — while
`isSameVal`, the tolerance equality of the spec, says they are different. -/
theorem hold_check_ignores_code_cex :
    pollStepCore "battery_percentage" (.num (1251/25)) (some ⟨.num 50, 60000⟩) none
        (some ⟨.num 50, true⟩) 1000 =
      ⟨.changed, none, some (.num (1251/25))⟩ ∧
    isSameVal "battery_percentage" (.num 50) (.num (1251/25)) = false := by
  constructor
  · simp [pollStepCore, lagStep, changeDetectStep, holdSame, isSameVal, jsAbsSubLe,
          jsToNumber, JVal.isNumber, TEMP_EPS, tempish, jsStrictEq, LAG_SUPPRESS_MS,
          abs_sub_le_iff]
    norm_num
  · simp [isSameVal, tempish, jsStrictEq, jsAbsSubLe, JVal.isNumber]
    norm_num

/-- Claim C3 (amended): lag suppression and change detection compare with
`isSameVal` — for two numbers, temperature-ish codes use the `0.05`
tolerance and every other code exact equality; non-numeric pairs compare
strictly.  The hold check, however, compares any two numeric values with the
`0.05` tolerance regardless of the code, and falls back to strict equality
otherwise. -/
theorem comparison_semantics (code : String) (x y : ℚ) (a b : JVal)
    (hna : a.isNumber = false) :
    (isSameVal code (.num x) (.num y) =
      if tempish.contains code then decide (|x - y| ≤ TEMP_EPS) else decide (x = y)) ∧
    (isSameVal code a b = jsStrictEq a b) ∧
    (holdSame (.num x) (.num y) = decide (|x - y| ≤ TEMP_EPS)) ∧
    (holdSame a b = jsStrictEq a b) := by
  refine ⟨?_, ?_, ?_, ?_⟩
  · simp [isSameVal, JVal.isNumber, jsAbsSubLe, jsStrictEq]
  · simp [isSameVal, hna]
  · by_cases heq : x = y
    · subst heq
      have h0 : (0 : ℚ) ≤ TEMP_EPS := by norm_num [TEMP_EPS]
      simp [holdSame, JVal.isNumber, jsToNumber, jsAbsSubLe, jsStrictEq, h0]
    · simp [holdSame, JVal.isNumber, jsToNumber, jsAbsSubLe, jsStrictEq, heq]
  · simp [holdSame, hna]

/-- Witness for the amended C3 theorem at concrete inputs. -/
theorem comparison_semantics_witness :
    isSameVal "battery_percentage" (.num 50) (.num (1251/25)) =
        (if tempish.contains "battery_percentage" then
          decide (|(50 : ℚ) - 1251/25| ≤ TEMP_EPS) else decide ((50 : ℚ) = 1251/25)) ∧
      holdSame (.str "auto") (.str "auto") = jsStrictEq (.str "auto") (.str "auto") := by
  have h := comparison_semantics "battery_percentage" 50 (1251/25) (.str "auto") (.str "auto")
    (by simp [JVal.isNumber])
  exact ⟨h.1, h.2.2.2⟩

/-- Claim C9: tenths-class scaling round-trips.  Poll ingestion divides a
numeric raw value by 10 for every temperature-like code and for
`humidity_value`; outbound preparation multiplies by 10 and rounds to the
nearest integer, so an integer raw value `n` whose real-unit form `n/10` lies
within the known clamp limits is submitted back as exactly `n`. -/
theorem tenths_roundtrip (code : String) (n : ℤ) (lo hi : ℚ) (la ua : Bool)
    (hcode : tempish.contains code = true ∨ code = "humidity_value")
    (hlo : lo ≤ (n : ℚ) / 10) (hhi : (n : ℚ) / 10 ≤ hi) :
    scaleIngest code (.num ((n : ℚ))) = .num ((n : ℚ) / 10) ∧
    prepareTempValue10 (.num ((n : ℚ) / 10)) (some ⟨.num lo, la⟩) (some ⟨.num hi, ua⟩) =
      some (.num ((n : ℚ))) ∧
    prepareTempValue10 (.num ((n : ℚ) / 10)) none none = some (.num ((n : ℚ))) := by
  have hround : jsRound ((n : ℚ)) = n := by
    rw [jsRound]
    rw [show (n : ℚ) + 1 / 2 = ((n : ℤ) : ℚ) + (1 / 2 : ℚ) by norm_num]
    rw [Int.floor_int_add]
    norm_num
  refine ⟨?_, ?_, ?_⟩
  · rcases hcode with h | h
    · have hmem : code ∈ tempish := by simpa using h
      have hh : code ≠ "humidity_value" := by
        intro hc; subst hc; simp [tempish] at hmem
      simp [scaleIngest, hmem, hh, jsDiv10, JVal.isNumber]
    · subst h
      simp [scaleIngest, tempish, jsDiv10, JVal.isNumber]
  · have hmax : max ((n : ℚ) / 10) lo = (n : ℚ) / 10 := max_eq_left hlo
    have hmin : min ((n : ℚ) / 10) hi = (n : ℚ) / 10 := min_eq_left hhi
    simp [prepareTempValue10, jsToNumber, jsMax, jsMin, jsRoundVal, JVal.isNumber,
          hmax, hmin, hround]
  · simp [prepareTempValue10, jsToNumber, jsRoundVal, JVal.isNumber, hround]

/-- Witness for C9: raw `217` ingests to `21.7` and is submitted back as
`217` with limits `16..28`. -/
theorem tenths_roundtrip_witness :
    scaleIngest "temp_set" (.num 217) = .num (217 / 10) ∧
    prepareTempValue10 (.num (217 / 10)) (some ⟨.num 16, true⟩) (some ⟨.num 28, true⟩) =
      some (.num 217) := by
  have h := tenths_roundtrip "temp_set" 217 16 28 true true
    (Or.inl (by simp [tempish])) (by norm_num) (by norm_num)
  refine ⟨?_, ?_⟩
  · have h1 := h.1
    norm_num at h1 ⊢
    exact h1
  · have h2 := h.2.1
    norm_num at h2 ⊢
    exact h2

/-- Claim C10: a raw value of a number-hinted code that does not parse as a
number coerces to NaN; `isSameVal` is false whenever either side is NaN (NaN
included); change detection therefore classifies such a value as changed and
re-writes it on every cycle. -/
theorem nan_always_rewritten (code : String) (v : JVal) (stored : Option StateVal)
    (hhint : TYPE_HINTS.lookup code = some "number")
    (hnum : v.isNumber = false) (hparse : jsToNumber v = .nan) :
    coerceTypeByHint code v = .nan ∧
    (∀ b : JVal, isSameVal code .nan b = false ∧ isSameVal code b .nan = false) ∧
    changeDetectStep code .nan none stored = ⟨.changed, none, some .nan⟩ := by
  refine ⟨?_, ?_, ?_⟩
  · simp [coerceTypeByHint, hhint, hnum, hparse]
  · intro b
    exact ⟨isSameVal_nan_left code b, isSameVal_nan_right code b⟩
  · cases stored with
    | none => simp [changeDetectStep]
    | some cur => simp [changeDetectStep, isSameVal_nan_right]

/-- Witness for C10: `temp_current` with raw string `"abc"`. -/
theorem nan_always_rewritten_witness :
    coerceTypeByHint "temp_current" (.str "abc") = .nan ∧
    changeDetectStep "temp_current" .nan none (some ⟨.nan, true⟩) =
      ⟨.changed, none, some .nan⟩ := by
  have h := nan_always_rewritten "temp_current" (.str "abc") (some ⟨.nan, true⟩)
    (by decide) (by decide) (by decide)
  exact ⟨h.1, h.2.2⟩

/-- Claim C1 counterexample (the spec's end-to-end scenario): with
`lower_temp = 16`, `upper_temp = 28` and a requested `temp_set = 30`, the
submitted wire value is the clamped `280`, but the local state is set to the
*original* `30` (not the clamped `28.0`), and the pending write is registered
for `30` as well. -/
theorem tempSet_clamp_localState_cex :
    (onWriteTempSet "rt1" (.num 30) (some ⟨.num 16, true⟩) (some ⟨.num 28, true⟩)).sent =
        some ("temp_set", .num 280) ∧
    (onWriteTempSet "rt1" (.num 30) (some ⟨.num 16, true⟩) (some ⟨.num 28, true⟩)).stateSet =
        [("rt1.temp_set", ⟨.num 30, true⟩)] ∧
    (onWriteTempSet "rt1" (.num 30) (some ⟨.num 16, true⟩) (some ⟨.num 28, true⟩)).noted =
        some ("temp_set", .num 30) ∧
    (JVal.num 30 ≠ JVal.num 28) := by
  have hsent : prepareTempValue10 (.num 30) (some ⟨.num 16, true⟩) (some ⟨.num 28, true⟩) =
      some (.num 280) := by
    simp [prepareTempValue10, jsToNumber, jsMax, jsMin, jsRoundVal, jsRound, JVal.isNumber]
    norm_num
  refine ⟨?_, ?_, ?_, by simp⟩
  · simp [onWriteTempSet, hsent]
  · simp [onWriteTempSet, hsent, jsToNumber]
  · simp [onWriteTempSet, hsent, jsToNumber]

/-- Claim C1 (amended): for a `temp_set` write of a numeric value `v` with
numeric limits, the value submitted is `round(min(max(v, lo), hi) * 10)` —
clamping affects only the wire value — while the local `temp_set` state is
immediately set to the original `v` with the acknowledged flag, and the
pending write is registered for the original `v` with expiry 60 seconds
(60000 ms) after the write, together with the recent-write timestamp. -/
theorem tempSet_write_flow (dev : String) (v lo hi : ℚ) (la ua : Bool)
    (st : ReconState) (now : ℤ) :
    (onWriteTempSet dev (.num v) (some ⟨.num lo, la⟩) (some ⟨.num hi, ua⟩)).sent =
        some ("temp_set", .num (jsRound (min (max v lo) hi * 10))) ∧
    (onWriteTempSet dev (.num v) (some ⟨.num lo, la⟩) (some ⟨.num hi, ua⟩)).stateSet =
        [(dev ++ ".temp_set", ⟨.num v, true⟩)] ∧
    (onWriteTempSet dev (.num v) (some ⟨.num lo, la⟩) (some ⟨.num hi, ua⟩)).noted =
        some ("temp_set", .num v) ∧
    (noteWrite st dev "temp_set" (.num v) now).pending.lookup (dev ++ "." ++ "temp_set") =
        some ⟨.num v, now + 60000⟩ ∧
    (noteWrite st dev "temp_set" (.num v) now).recentWriteTs.lookup
        (dev ++ "." ++ "temp_set") = some now := by
  have hsent : prepareTempValue10 (.num v) (some ⟨.num lo, la⟩) (some ⟨.num hi, ua⟩) =
      some (.num (jsRound (min (max v lo) hi * 10))) := by
    simp [prepareTempValue10, jsToNumber, jsMax, jsMin, jsRoundVal, JVal.isNumber]
  refine ⟨?_, ?_, ?_, ?_, ?_⟩
  · simp [onWriteTempSet, hsent]
  · simp [onWriteTempSet, hsent, jsToNumber]
  · simp [onWriteTempSet, hsent, jsToNumber]
  · rw [show (60000 : ℤ) = WRITE_HOLD_MS by norm_num [WRITE_HOLD_MS]]
    simp [noteWrite, alistSet_lookup_self]
  · simp [noteWrite, alistSet_lookup_self]

/-- Claim C5 counterexample: a `mode` write of the unrecognized value
`"banana"` is submitted unchanged — no allow-list validation and no default
substitution happen for `mode` (the alias table has no entry for it). -/
theorem mode_no_allowlist_cex :
    (onWriteMode "rt1" (.str "banana")).sent = some ("mode", .str "banana") ∧
    MODE_ALIASES.lookup "banana" = none := by
  exact ⟨by decide, by decide⟩

/-- Claim C5 (amended): `SetpointChangeSource` writes are validated against
the allow-list `{'schedule', 'Externally'}` with default `'Externally'`
substituted for any unrecognized value; `mode` writes are only normalized
through the case-insensitive alias table (`normalizeMode`), and an
unrecognized value is submitted unchanged rather than replaced by a
default. -/
theorem enum_write_validation (dev s : String) :
    (onWriteSetpointChangeSource dev (.str s)).sent =
        some ("SetpointChangeSource",
          .str (if ["schedule", "Externally"].contains (jsTrim s) then jsTrim s
                else "Externally")) ∧
    (onWriteMode dev (.str s)).sent = some ("mode", .str (normalizeMode s)) ∧
    (∀ t : String, MODE_ALIASES.lookup (asciiLower (jsTrim t)) = none →
        normalizeMode t = jsTrim t) := by
  refine ⟨?_, ?_, ?_⟩
  · simp [onWriteSetpointChangeSource, jsToString]
  · simp [onWriteMode, jsToString]
  · intro t ht
    simp [normalizeMode, ht]

/-- Witness for the amended C5 theorem at concrete inputs. -/
theorem enum_write_validation_witness :
    (onWriteSetpointChangeSource "rt1" (.str "whatever")).sent =
        some ("SetpointChangeSource",
          .str (if ["schedule", "Externally"].contains (jsTrim "whatever")
                then jsTrim "whatever" else "Externally")) ∧
    normalizeMode "banana" = jsTrim "banana" := by
  have h := enum_write_validation "rt1" "whatever"
  exact ⟨h.1, h.2.2 "banana" (by decide)⟩

/-- Claim C2: with an active pending write (expiry not passed) whose shape
stems from a local write, and the local state still holding the optimistic
write value, a polled value equal to the pending value under tolerance
equality clears the pending entry and processing continues to change
detection (which classifies it as skipped); a polled value not equal keeps
the pending entry, writes nothing, and counts the code as held. -/
theorem hold_check_behaviour (code : String) (value : JVal) (p : PendingEntry)
    (recentTs : Option ℤ) (pollStartedAt : ℤ)
    (hact : pollStartedAt < p.untilMs)
    (hshape : holdShape code value p.val) :
    (isSameVal code value p.val = true →
        pollStepCore code value (some p) recentTs (some ⟨p.val, true⟩) pollStartedAt =
          ⟨.skipped, none, none⟩) ∧
    (isSameVal code value p.val = false →
        pollStepCore code value (some p) recentTs (some ⟨p.val, true⟩) pollStartedAt =
          ⟨.held, some p, none⟩) := by
  have hhs := holdSame_eq_isSameVal code value p.val hshape
  have hpv : p.val ≠ .undefv := by
    rcases hshape with ⟨_, ⟨q, hq⟩, _⟩ | ⟨⟨b, hb⟩, _⟩ | ⟨⟨s, hs⟩, _⟩
    · simp [hq]
    · simp [hb]
    · simp [hs]
  constructor
  · intro h
    have hsym : isSameVal code p.val value = true := by rw [isSameVal_symm]; exact h
    simp [pollStepCore, hact, hhs, h, lagStep, changeDetectStep, hpv, hsym]
  · intro h
    simp [pollStepCore, hact, hhs, h]

/-- Witness for C2 (the spec's hold-precedence scenario): pending `21.0` for
`temp_set` with future expiry; polled `21.02` clears the hold and ends in
change detection as skipped; polled `18.5` is held with the pending entry
kept. -/
theorem hold_check_behaviour_witness :
    pollStepCore "temp_set" (.num (1051/50)) (some ⟨.num 21, 66000⟩) (some 1000)
        (some ⟨.num 21, true⟩) 6000 = ⟨.skipped, none, none⟩ ∧
    pollStepCore "temp_set" (.num (37/2)) (some ⟨.num 21, 66000⟩) (some 1000)
        (some ⟨.num 21, true⟩) 6000 = ⟨.held, some ⟨.num 21, 66000⟩, none⟩ := by
  constructor
  · refine (hold_check_behaviour "temp_set" (.num (1051/50)) ⟨.num 21, 66000⟩ (some 1000) 6000
      (by norm_num) (Or.inl ⟨by decide, ⟨21, rfl⟩, rfl⟩)).1 ?_
    simp [isSameVal, tempish, JVal.isNumber, jsAbsSubLe, TEMP_EPS, abs_sub_le_iff]
    norm_num
  · refine (hold_check_behaviour "temp_set" (.num (37/2)) ⟨.num 21, 66000⟩ (some 1000) 6000
      (by norm_num) (Or.inl ⟨by decide, ⟨21, rfl⟩, rfl⟩)).2 ?_
    simp [isSameVal, tempish, JVal.isNumber, jsAbsSubLe, TEMP_EPS, abs_sub_le_iff]
    norm_num

/-- Claim C7: with a recent-write timestamp inside the 15 s lag window at
poll start, the polled value is compared with the currently stored value:
on a match processing falls through to the ordinary change detection, on a
mismatch (or missing/undefined stored value) the code is skipped for the
cycle with no write; a code without a recent-write timestamp goes straight
to change detection, unaffected by any suppression. -/
theorem lag_suppression_behaviour (code : String) (value : JVal) (cur : StateVal)
    (ts pollStartedAt : ℤ) (hts : ts ≠ 0)
    (hwin : pollStartedAt - ts < LAG_SUPPRESS_MS) :
    (cur.val ≠ .undefv → isSameVal code cur.val value = true →
        pollStepCore code value none (some ts) (some cur) pollStartedAt =
          changeDetectStep code value none (some cur)) ∧
    ((cur.val = .undefv ∨ isSameVal code cur.val value = false) →
        pollStepCore code value none (some ts) (some cur) pollStartedAt =
          ⟨.suppressed, none, none⟩) ∧
    (∀ (c2 : String) (v2 : JVal) (st2 : Option StateVal),
        pollStepCore c2 v2 none none st2 pollStartedAt =
          changeDetectStep c2 v2 none st2) := by
  refine ⟨?_, ?_, ?_⟩
  · intro h1 h2
    simp [pollStepCore, lagStep, hts, hwin, h1, h2]
  · intro h
    rcases h with h | h
    · simp [pollStepCore, lagStep, hts, hwin, h]
    · simp [pollStepCore, lagStep, hts, hwin, h]
  · intro c2 v2 st2
    simp [pollStepCore, lagStep]

/-- Witness for C7 (the spec's lag scenario): a local write at t0 = 1000 ms,
a poll at 6000 ms delivering `25` against stored `22.0` is suppressed, while
a code without a recent write proceeds to change detection. -/
theorem lag_suppression_witness :
    pollStepCore "temp_set" (.num 25) none (some 1000) (some ⟨.num 22, true⟩) 6000 =
      ⟨.suppressed, none, none⟩ ∧
    pollStepCore "battery_percentage" (.num 77) none none (some ⟨.num 50, true⟩) 6000 =
      changeDetectStep "battery_percentage" (.num 77) none (some ⟨.num 50, true⟩) := by
  have h := lag_suppression_behaviour "temp_set" (.num 25) ⟨.num 22, true⟩ 1000 6000
    (by norm_num) (by norm_num [LAG_SUPPRESS_MS])
  refine ⟨h.2.1 (Or.inr ?_), h.2.2 _ _ _⟩
  simp [isSameVal, tempish, JVal.isNumber, jsAbsSubLe, TEMP_EPS, abs_sub_le_iff]
  norm_num

/-- Claim C8 counterexample: a stored NaN (from the non-parsing raw string
`"abc"` on the number-hinted `temp_current`) is *re-written on every cycle*:
re-processing the identical snapshot value against the identical stored value
is classified as changed, not skipped, because NaN is unequal to itself. -/
theorem idempotent_repoll_nan_cex :
    coercedPollValue "temp_current" (.str "abc") = .nan ∧
    pollStepCore "temp_current" (coercedPollValue "temp_current" (.str "abc")) none none
        (some ⟨coercedPollValue "temp_current" (.str "abc"), true⟩) 0 =
      ⟨.changed, none, some .nan⟩ := by
  exact ⟨by decide, by decide⟩

/-- Claim C8 (amended): once every hold has expired and every lag window has
passed, re-processing a snapshot value identical to the stored value writes
nothing and is classified as skipped — for every code whose scaled/coerced
value is neither NaN nor `undefined` (a NaN value, by contrast, is re-written
on every cycle, see the counterexample). -/
theorem idempotent_repoll (code : String) (raw : JVal) (pending? : Option PendingEntry)
    (recentTs : Option ℤ) (pollStartedAt : ℤ)
    (hpend : ∀ p, pending? = some p → p.untilMs ≤ pollStartedAt)
    (hts : ∀ t, recentTs = some t → t = 0 ∨ LAG_SUPPRESS_MS ≤ pollStartedAt - t)
    (hv : coercedPollValue code raw ≠ .nan)
    (hu : coercedPollValue code raw ≠ .undefv) :
    pollStepCore code (coercedPollValue code raw) pending? recentTs
        (some ⟨coercedPollValue code raw, true⟩) pollStartedAt =
      ⟨.skipped, pending?, none⟩ := by
  have hrefl := isSameVal_refl code (coercedPollValue code raw) hv
  have hchg : ∀ pa : Option PendingEntry,
      changeDetectStep code (coercedPollValue code raw) pa
        (some ⟨coercedPollValue code raw, true⟩) = ⟨.skipped, pa, none⟩ := by
    intro pa
    simp [changeDetectStep, hrefl, hu]
  have hlag : ∀ pa : Option PendingEntry,
      lagStep code (coercedPollValue code raw) pa recentTs
        (some ⟨coercedPollValue code raw, true⟩) pollStartedAt = ⟨.skipped, pa, none⟩ := by
    intro pa
    cases recentTs with
    | none => simp [lagStep, hchg]
    | some t =>
        rcases hts t rfl with h0 | h0
        · simp [lagStep, h0, hchg]
        · have : ¬ (pollStartedAt - t < LAG_SUPPRESS_MS) := not_lt.mpr h0
          simp [lagStep, this, hchg, hrefl, hu]
  cases pending? with
  | none => simpa using hlag none
  | some p =>
      have hexp : ¬ (pollStartedAt < p.untilMs) := not_lt.mpr (hpend p rfl)
      simpa [pollStepCore, hexp] using hlag (some p)

/-- Witness for the amended C8 theorem: `temp_set` raw `217` with an expired
pending entry and a cleared (zero) recent-write timestamp is skipped. -/
theorem idempotent_repoll_witness :
    pollStepCore "temp_set" (coercedPollValue "temp_set" (.num 217))
        (some ⟨.num 20, 1000⟩) (some 0)
        (some ⟨coercedPollValue "temp_set" (.num 217), true⟩) 2000 =
      ⟨.skipped, some ⟨.num 20, 1000⟩, none⟩ := by
  have hval : coercedPollValue "temp_set" (.num 217) = .num (217 / 10) := by
    simp [coercedPollValue, scaleIngest, tempish, jsDiv10, JVal.isNumber,
          coerceTypeByHint, TYPE_HINTS, List.lookup]
  exact idempotent_repoll "temp_set" (.num 217) (some ⟨.num 20, 1000⟩) (some 0) 2000
    (by intro p hp; cases hp; norm_num)
    (by intro t ht; cases ht; exact Or.inl rfl)
    (by rw [hval]; simp)
    (by rw [hval]; simp)

/-- Claim C4 (code bug): `_softRefreshSoon` does schedule one targeted
re-fetch for `{code, temp_current}` after the fixed 1.5 s delay, and its
errors are logged and swallowed — but `_softRefreshOne` evaluates the
undefined identifier `devId` (the parameter is `deviceId`) before its
per-entry loop, so every invocation throws a `ReferenceError` that the catch
swallows, and the soft refresh never applies any fetched value to local
state, for every possible fetched status document. -/
theorem softRefresh_never_applies (raw : JDoc) (code : String) :
    softRefreshOne raw = [] ∧
    softRefreshOneBody raw = .error "ReferenceError: devId is not defined" ∧
    (softRefreshSoon code).1 = 1500 ∧
    code ∈ (softRefreshSoon code).2 ∧ "temp_current" ∈ (softRefreshSoon code).2 := by
  refine ⟨rfl, rfl, rfl, ?_, ?_⟩
  · by_cases h : code = "temp_current"
    · simp [softRefreshSoon, h]
    · simp [softRefreshSoon, h]
  · by_cases h : code = "temp_current"
    · simp [softRefreshSoon, h]
    · simp [softRefreshSoon, h]

/-- The concrete device document used to settle claim C6: raw vendor object
with an id, a name and a `status` array. -/
def rawDevRT1 : JDoc :=
  .obj [("id", .str "rt1"), ("name", .str "Living"),
        ("status", .arr [.obj [("code", .str "temp_set"), ("value", .num 215)]])]

/-- Claim C6 counterexample: when both direct endpoints fail, the final
fallback of `getDeviceStatus` returns the matching device's *raw vendor
object* (`found?.raw || {}`), not its flattened code-to-value status map:
for the device `rt1` the returned document is the raw object, which differs
from the status map `{temp_set: 215}` the claim promises. -/
theorem getDeviceStatus_last_resort_raw_cex :
    getDeviceStatus "rt1" (.error ()) (.error ())
        (.ok (.obj [("devices", .arr [rawDevRT1])])) = .ok rawDevRT1 ∧
    flattenStatusMap rawDevRT1 = .obj [("temp_set", .num 215)] ∧
    rawDevRT1 ≠ flattenStatusMap rawDevRT1 := by
  refine ⟨rfl, rfl, ?_⟩
  intro h
  have h1 : JDoc.getField rawDevRT1 "id" = .str "rt1" := rfl
  have h2 : JDoc.getField (flattenStatusMap rawDevRT1) "id" = .undefv := rfl
  rw [h] at h1
  rw [h2] at h1
  exact JDoc.noConfusion h1

/-- Claim C6 (amended): `getDeviceStatus` first returns the dedicated status
endpoint's result; only on its failure the generic device-fetch result; only
when both fail it re-lists all devices and returns the raw vendor object of
the first device whose id matches (an empty object when none matches or the
raw object is falsy). -/
theorem getDeviceStatus_fallback_chain (deviceId : String)
    (statusEp deviceEp listData : Except Unit JDoc) :
    (∀ d, statusEp = .ok d →
        getDeviceStatus deviceId statusEp deviceEp listData = .ok d) ∧
    (∀ d, statusEp = .error () → deviceEp = .ok d →
        getDeviceStatus deviceId statusEp deviceEp listData = .ok d) ∧
    (∀ data found, statusEp = .error () → deviceEp = .error () → listData = .ok data →
        (getDevices data).find? (fun d => jsLooseEqIdStr d.id deviceId) = some found →
        getDeviceStatus deviceId statusEp deviceEp listData =
          .ok (if found.raw.truthy then found.raw else .obj [])) ∧
    (∀ data, statusEp = .error () → deviceEp = .error () → listData = .ok data →
        (getDevices data).find? (fun d => jsLooseEqIdStr d.id deviceId) = none →
        getDeviceStatus deviceId statusEp deviceEp listData = .ok (.obj [])) := by
  refine ⟨?_, ?_, ?_, ?_⟩
  · intro d hd
    subst hd
    rfl
  · intro d h1 h2
    subst h1
    subst h2
    rfl
  · intro data found h1 h2 h3 hfind
    subst h1
    subst h2
    subst h3
    simp [getDeviceStatus, hfind]
  · intro data h1 h2 h3 hfind
    subst h1
    subst h2
    subst h3
    simp [getDeviceStatus, hfind]

/-- Witness for the amended C6 theorem: a successful status endpoint is
returned as-is, and a full fallback over an empty device list yields the
empty object. -/
theorem getDeviceStatus_fallback_chain_witness :
    getDeviceStatus "x1" (.ok (.str "ok1")) (.error ()) (.error ()) = .ok (.str "ok1") ∧
    getDeviceStatus "x1" (.error ()) (.error ()) (.ok (.arr [])) = .ok (.obj []) := by
  constructor
  · exact (getDeviceStatus_fallback_chain "x1" (.ok (.str "ok1")) (.error ())
      (.error ())).1 (.str "ok1") rfl
  · exact (getDeviceStatus_fallback_chain "x1" (.error ()) (.error ())
      (.ok (.arr []))).2.2.2 (.arr []) rfl rfl rfl rfl

end DanfossAlly


